import Mathlib

/-!
Shallow embedding of the exam-server backend (`server.py`) and verification of
the frozen claims about it.

Modelling conventions:
* MongoDB collections are Lean lists kept in insertion order; the documents are
  Lean structures whose fields are exactly the keys the handlers ever write.
* `find_one` is `List.find?`, `update_one` is `updateFirst` (Mongo updates the
  first matching document), `update_many` is a conditional `List.map`,
  `insert_one` appends at the end.
* A Mongo field that can be missing or `null` is an `Option`; no handler in
  this code base distinguishes key-absent from key-null in a way that matters
  to the claims (the one `dict.get` default that could fire on a key that is
  genuinely absent, `attempt.get("time_taken", 0)`, is modelled explicitly).
* Timestamps are opaque instants modelled as `Int` (ISO-8601 serialisation and
  re-parsing round-trips and is not otherwise inspected).
* Fallible handlers return `Except ApiErr`; an uncaught Python exception
  (which FastAPI surfaces as a 500 response) is modelled as `Option.none`
  where it matters (`mark_for_review`).
* Python `str.isalnum` is modelled on the ASCII fragment
  (`Char.isAlphanum`); all roll numbers appearing in the spec are ASCII.
-/

namespace ExamServer

/-- An answer option of a question: the Mongo sub-document
`{'letter': ..., 'value': ...}` built by the docx parser. -/
structure Opt where
  letter : String
  value : String
  deriving Repr, DecidableEq

/-- One entry of the section list sent to `organize_sections`
(`{name, question_ids}`); `section.get('question_ids', [])` is total here
because the field is part of the record. -/
structure SectionCfg where
  name : String
  question_ids : List String
  deriving Repr, DecidableEq

/-- An `exams` collection document (`ExamConfig` in `server.py`). -/
structure Exam where
  id : String
  branch : String
  year : String
  semester : String
  subject : String
  num_students : Int
  time_limit : Int
  created_at : Int
  questions_uploaded : Bool
  questions_count : Int
  questions_per_student : Int
  sections : List SectionCfg
  deriving Repr, DecidableEq

/-- A `questions` collection document as inserted by `upload_questions`;
`section_id` is written later by `organize_sections` (an integer index) and
cleared for unassigned questions. -/
structure Question where
  id : String
  exam_id : String
  question_number : Nat
  question_text : String
  has_code : Bool
  code_snippet : Option String
  options : List Opt
  correct_answer : Option String
  section_id : Option Nat
  image_url : Option String
  image_public_id : Option String
  created_at : Int
  deriving Repr, DecidableEq

/-- A `students` collection document as inserted by `student_register`.
The Python dict key `section` is a Lean keyword, hence `section_label`. -/
structure Student where
  id : String
  name : String
  roll_number : String
  year : String
  semester : String
  branch : String
  section_label : String
  email : Option String
  password : String
  active_session_id : Option String
  last_login_device : Option String
  last_login_time : Option Int
  created_at : Int
  deriving Repr, DecidableEq

/-- An `exam_attempts` collection document (`ExamAttempt` in `server.py`,
plus the `question_ids` key added by `start_exam` and the `time_taken` key
added by `submit_exam`). `answers` is the Mongo sub-document mapping question
ids to chosen letters, kept as an association list. -/
structure ExamAttempt where
  id : String
  student_id : String
  exam_id : String
  started_at : Int
  submitted_at : Option Int
  answers : List (String × String)
  marked_for_review : List String
  completed : Bool
  score : Option Nat
  total_questions : Option Nat
  suspicious_activity_count : Nat
  question_ids : Option (List String)
  time_taken : Option Int
  deriving Repr, DecidableEq

/-- The four document collections of the database. -/
structure Db where
  exams : List Exam
  questions : List Question
  students : List Student
  exam_attempts : List ExamAttempt
  deriving Repr, DecidableEq

/-- The error taxonomy the handlers surface via `HTTPException`. -/
inductive ApiErr where
  | notFound (msg : String)
  | badRequest (msg : String)
  | unauthorized (msg : String)
  deriving Repr, DecidableEq

/-- `update_one`: apply `f` to the first element satisfying `p`, leave the
rest of the list unchanged (matched-zero updates leave the list as is). -/
def updateFirst (p : α → Bool) (f : α → α) : List α → List α
  | [] => []
  | x :: xs => if p x then f x :: xs else x :: updateFirst p f xs

/-- Python `answers.get(question_id)`: first binding wins, `None` when the
key is missing. -/
def answerGet (answers : List (String × String)) (k : String) : Option String :=
  (answers.find? (fun kv => kv.1 == k)).map (·.2)

/-! ## The docx question parser (`upload_questions`, the per-paragraph part)

String primitives are implemented on `List Char` so that every definition
reduces in the kernel; Python semantics is restricted to the ASCII fragment
(whitespace, `\d`, `isalnum`), which covers every string the documents and
the spec use. -/

/-- Python `str.strip()`. -/
def pyStrip (s : String) : String :=
  String.mk (((s.toList.dropWhile Char.isWhitespace).reverse.dropWhile
    Char.isWhitespace).reverse)

/-- Python `text.split('\n')` (keeps empty parts). -/
def splitNl (s : String) : List String :=
  (splitNlAux s.toList).map String.mk
where
  splitNlAux : List Char → List (List Char)
    | [] => [[]]
    | c :: rest =>
      if c = '\n' then [] :: splitNlAux rest
      else match splitNlAux rest with
        | [] => [[c]]
        | part :: parts => (c :: part) :: parts

/-- Python `pat in line` (substring containment), for a non-empty pattern. -/
def pyContainsSub (s pat : String) : Bool :=
  go s.toList
where
  go : List Char → Bool
    | [] => pat.toList.isEmpty
    | c :: rest => pat.toList.isPrefixOf (c :: rest) || go rest

/-- The tail `\s*(.+)` of both regexes, with its backtracking: greedily skip
whitespace, then the (dot-all, greedy) group takes everything that is left;
if only whitespace is left, `\s*` gives one character back so that `(.+)`
can still match. Returns group 2, or `none` when the input is empty. -/
def tailGroup (r : List Char) : Option (List Char) :=
  let t := r.dropWhile Char.isWhitespace
  if t.isEmpty then
    match r.getLast? with
    | none => none
    | some c => some [c]
  else some t

/-- Digits-to-number for the `(\d+)` group. -/
def digitsToNat (l : List Char) : Nat :=
  l.foldl (fun n c => 10 * n + (c.toNat - '0'.toNat)) 0

/-- `re.match(r'^Q(\d+)[:.]?\s*(.+)', text, re.DOTALL | re.IGNORECASE)`:
question number and remaining text. `\d+` is a maximal digit run; `[:.]?`
prefers to consume a separator but gives it back when `(.+)` would
otherwise fail. -/
def qMatch (text : String) : Option (Nat × String) :=
  match text.toList with
  | [] => none
  | c :: rest =>
    if c = 'Q' ∨ c = 'q' then
      let digits := rest.takeWhile Char.isDigit
      if digits.isEmpty then none
      else
        let r1 := rest.dropWhile Char.isDigit
        let n := digitsToNat digits
        match r1 with
        | s :: r2 =>
          if s = ':' ∨ s = '.' then
            match tailGroup r2 with
            | some g => some (n, String.mk g)
            | none =>
              match tailGroup r1 with
              | some g => some (n, String.mk g)
              | none => none
          else
            match tailGroup r1 with
            | some g => some (n, String.mk g)
            | none => none
        | [] => none
    else none

/-- `re.match(r'^([A-D])\)\s*(.+)$', line, re.IGNORECASE)`: option letter
(upper-cased, as the handler stores it) and option value
(group 2, `.strip()`-ed by the handler). -/
def optMatch (line : String) : Option (String × String) :=
  match line.toList with
  | c :: p :: rest =>
    if ('A' ≤ c ∧ c ≤ 'D') ∨ ('a' ≤ c ∧ c ≤ 'd') then
      if p = ')' then
        match tailGroup rest with
        | some g => some (String.mk [c.toUpper], pyStrip (String.mk g))
        | none => none
      else none
    else none
  | _ => none

/-- The literal substrings whose presence switches a line into "code mode". -/
def codeIndicators : List String :=
  ["#include", "int main", "def ", "public class", "console.log",
   "printf", "System.out", "cout", "print(", "using namespace", "```"]

/-- The per-question line-classification state of `upload_questions`. -/
structure ParseSt where
  question_lines : List String
  options : List Opt
  in_options : Bool
  code_lines : List String
  in_code : Bool
  deriving Repr, DecidableEq

/-- One iteration of the `for line in lines` loop of `upload_questions`. -/
def lineStep (st : ParseSt) (line0 : String) : ParseSt :=
  let line := pyStrip line0
  if line.isEmpty then st
  else
    match optMatch line with
    | some (letter, value) =>
      { st with in_options := true, in_code := false,
                options := st.options ++ [⟨letter, value⟩] }
    | none =>
      if st.in_options then st
      else
        let inCode := st.in_code || codeIndicators.any (fun ind => pyContainsSub line ind)
        if inCode then { st with in_code := true, code_lines := st.code_lines ++ [line] }
        else { st with question_lines := st.question_lines ++ [line] }

/-- The full line loop, started from the empty state. -/
def parseLines (lines : List String) : ParseSt :=
  lines.foldl lineStep ⟨[], [], false, [], false⟩

/-- The correct-answer scan of `upload_questions`: for every option whose
value contains `'*'`, overwrite `correct_answer` with its letter and strip
the asterisks (then `.strip()`) from its stored value; there is no `break`,
so each starred option overwrites the previous letter. Returns the final
`correct_answer` and the final option list. `starStep` is one loop
iteration, threading the `(correct_answer, options-so-far)` pair. -/
def starStep (acc : Option String × List Opt) (o : Opt) : Option String × List Opt :=
  if o.value.toList.contains '*' then
    (some o.letter, acc.2 ++ [⟨o.letter, pyStrip (String.mk (o.value.toList.filter (· ≠ '*')))⟩])
  else (acc.1, acc.2 ++ [o])

/-- The scan itself: fold `starStep` over the options in order. -/
def applyStar (opts : List Opt) : Option String × List Opt :=
  opts.foldl starStep (none, [])

/-- One parsed question as built by the paragraph loop of `upload_questions`
(before the surrounding `exam_id` / `id` / `image_url` fields are attached). -/
structure ParsedQ where
  question_number : Nat
  question_text : String
  has_code : Bool
  code_snippet : Option String
  options : List Opt
  correct_answer : Option String
  deriving Repr, DecidableEq

/-- The per-paragraph body of `upload_questions`: strip the paragraph text,
match the question pattern, classify the lines, discard the paragraph when
it yields no options, and run the correct-answer scan. -/
def parseParagraph (para : String) : Option ParsedQ :=
  let text := pyStrip para
  if text.isEmpty then none
  else
    match qMatch text with
    | none => none
    | some (qnum, fullText) =>
      let st := parseLines (splitNl fullText)
      if st.options.isEmpty then none
      else
        let res := applyStar st.options
        some { question_number := qnum,
               question_text := String.intercalate " " st.question_lines,
               has_code := !st.code_lines.isEmpty,
               code_snippet := if st.code_lines.isEmpty then none
                               else some (String.intercalate "\n" st.code_lines),
               options := res.2,
               correct_answer := res.1 }

/-- The option list of a paragraph as parsed by the line loop, before the
correct-answer scan rewrites it (used to state claims about the scan). -/
def rawOptions (para : String) : List Opt :=
  match qMatch (pyStrip para) with
  | none => []
  | some (_, fullText) => (parseLines (splitNl fullText)).options

/-- Spec-side reading of claim C2: the letter of the first option, in option
order, whose value contains `'*'`. -/
def firstStarLetter (opts : List Opt) : Option String :=
  (opts.find? (fun o => o.value.toList.contains '*')).map (·.letter)

/-- The letter of the last option, in option order, whose value contains
`'*'` (what the scan actually stores). -/
def lastStarLetter : List Opt → Option String
  | [] => none
  | o :: rest =>
    match lastStarLetter rest with
    | some l => some l
    | none => if o.value.toList.contains '*' then some o.letter else none

/-- Asterisk-stripping as applied by the scan to each starred option. -/
def stripStarOpt (o : Opt) : Opt :=
  if o.value.toList.contains '*' then
    ⟨o.letter, pyStrip (String.mk (o.value.toList.filter (· ≠ '*')))⟩
  else o

/-! ## Scoring and the results handlers -/

/-- Round-half-to-even of the exact fraction `n / d` (for `d > 0`):
Python's `round` on that value. -/
def rheDiv (n d : ℤ) : ℤ :=
  let q := Int.ediv n d
  let r := Int.emod n d
  if 2 * r < d then q
  else if d < 2 * r then q + 1
  else if Int.emod q 2 = 0 then q else q + 1

/-- `round((score / total_sectioned * 100) if total_sectioned > 0 else 0, 2)`,
as written identically in all three results handlers. The rounded
two-decimal percentage is represented exactly in hundredths of a percent:
the handler's stored value is `pctBp score total / 100` as a decimal. -/
def pctBp (score total : Nat) : ℤ :=
  if total > 0 then rheDiv ((score : ℤ) * 10000) (total : ℤ) else 0

/-- `db.questions.find({"exam_id": eid, "section_id": {"$exists": True, "$ne": None}})`:
the questions of the exam currently assigned to a section. -/
def sectionedQuestions (db : Db) (eid : String) : List Question :=
  db.questions.filter (fun q => q.exam_id == eid && q.section_id.isSome)

/-- The comparison at the heart of every scoring loop
(`answers.get(q['id']) == q['correct_answer']`): a missing answer is `None`,
and an absent `correct_answer` is stored as `None`, and `None == None`. -/
def isCorrect (answers : List (String × String)) (q : Question) : Bool :=
  answerGet answers q.id == q.correct_answer

/-- The scoring loop shared by `submit_exam` and the three results handlers:
`for q in qs: if answers.get(q['id']) == q['correct_answer']: score += 1`. -/
def scoreLoop (answers : List (String × String)) (qs : List Question) : Nat :=
  qs.foldl (fun acc q => if isCorrect answers q then acc + 1 else acc) 0

/-- A row of `GET /admin/results`. The handler renders the score as the
string `"score/total"` (`score_text`); `score` and `total` record the two
numbers that format it. `date` is `attempt.get('submitted_at', ...)`, whose
default never fires because the key is always present on attempt documents. -/
structure ResultRow where
  id : String
  roll_number : String
  student_name : String
  subject : String
  score : Nat
  total : Nat
  score_text : String
  percentage : ℤ
  date : Option Int
  branch : String
  year : String
  semester : String
  section_label : String
  deriving Repr, DecidableEq

/-- A query filter of `GET /admin/results` rejects a row only when the
parameter is present and truthy and differs from the field
(`if branch and exam.get('branch') != branch: continue`). -/
def filterRejects (param : Option String) (fieldVal : String) : Bool :=
  match param with
  | some p => !(p == "") && !(fieldVal == p)
  | none => false

/-- The loop body of `get_results` for one completed attempt: join student
and exam (skip when either is missing), apply the filters, recompute the
score against the exam's sectioned questions, emit the row. -/
def resultRowOf (branch year semester subject sectionFilter : Option String)
    (db : Db) (attempt : ExamAttempt) : Option ResultRow :=
  match db.students.find? (fun st => st.id == attempt.student_id),
        db.exams.find? (fun e => e.id == attempt.exam_id) with
  | some student, some exam =>
    if filterRejects branch exam.branch || filterRejects year exam.year ||
       filterRejects semester exam.semester || filterRejects subject exam.subject ||
       filterRejects sectionFilter student.section_label then none
    else
      let sq := sectionedQuestions db exam.id
      let score := scoreLoop attempt.answers sq
      some { id := attempt.id, roll_number := student.roll_number,
             student_name := student.name, subject := exam.subject,
             score := score, total := sq.length,
             score_text := toString score ++ "/" ++ toString sq.length,
             percentage := pctBp score sq.length,
             date := attempt.submitted_at,
             branch := exam.branch, year := exam.year,
             semester := exam.semester, section_label := student.section_label }
  | _, _ => none

/-- `GET /admin/results`: one row per completed attempt that survives the
joins and filters. -/
def get_results (branch year semester subject sectionFilter : Option String)
    (db : Db) : List ResultRow :=
  (db.exam_attempts.filter (fun a => a.completed)).filterMap
    (resultRowOf branch year semester subject sectionFilter db)

/-- A row of `GET /admin/results/{exam_id}`. -/
structure ExamResultRow where
  student_name : String
  roll_number : String
  score : Nat
  total_questions : Nat
  percentage : ℤ
  time_taken : Int
  submitted_at : Option Int
  deriving Repr, DecidableEq

/-- The response of `GET /admin/results/{exam_id}`. -/
structure ExamResultsOut where
  exam : Exam
  results : List ExamResultRow
  total_students : Nat
  total_questions : Nat
  deriving Repr, DecidableEq

/-- The loop body of `get_exam_results` for one completed attempt: join the
student (password excluded from the projection), recompute the score against
the precomputed sectioned-question list `sq`.
`attempt.get("time_taken", 0)` defaults to 0 because the key is absent until
submission. -/
def examResultRowOf (db : Db) (sq : List Question) (attempt : ExamAttempt) :
    Option ExamResultRow :=
  (db.students.find? (fun st => st.id == attempt.student_id)).map (fun student =>
    let score := scoreLoop attempt.answers sq
    { student_name := student.name, roll_number := student.roll_number,
      score := score, total_questions := sq.length,
      percentage := pctBp score sq.length,
      time_taken := attempt.time_taken.getD 0,
      submitted_at := attempt.submitted_at })

/-- `GET /admin/results/{exam_id}`. -/
def get_exam_results (eid : String) (db : Db) : Except ApiErr ExamResultsOut :=
  match db.exams.find? (fun e => e.id == eid) with
  | none => .error (.notFound "Exam not found")
  | some exam =>
    let attempts := db.exam_attempts.filter (fun a => a.exam_id == eid && a.completed)
    let sq := sectionedQuestions db eid
    let rows := attempts.filterMap (examResultRowOf db sq)
    .ok { exam := exam, results := rows, total_students := rows.length,
          total_questions := sq.length }

/-- A row of `GET /student/results/{student_id}`. -/
structure StudentResultRow where
  subject : String
  branch : String
  year : String
  semester : String
  score : Nat
  total : Nat
  percentage : ℤ
  date : Option Int
  deriving Repr, DecidableEq

/-- The loop body of `get_student_results` for one completed attempt: join
the exam (skip when missing), recompute the score against the exam's
sectioned questions. -/
def studentResultRowOf (db : Db) (attempt : ExamAttempt) : Option StudentResultRow :=
  (db.exams.find? (fun e => e.id == attempt.exam_id)).map (fun exam =>
    let sq := sectionedQuestions db attempt.exam_id
    let score := scoreLoop attempt.answers sq
    { subject := exam.subject, branch := exam.branch, year := exam.year,
      semester := exam.semester, score := score, total := sq.length,
      percentage := pctBp score sq.length, date := attempt.submitted_at })

/-- `GET /student/results/{student_id}`. -/
def get_student_results (sid : String) (db : Db) : List StudentResultRow :=
  (db.exam_attempts.filter (fun a => a.student_id == sid && a.completed)).filterMap
    (studentResultRowOf db)

/-! ## Registration, login, sessions -/

/-- The request body of `POST /student/register`. -/
structure StudentRegisterIn where
  name : String
  roll_number : String
  year : String
  semester : String
  branch : String
  section_label : String
  email : Option String
  deriving Repr, DecidableEq

/-- A `{success, message}` response body; it carries no other key (in
particular no password). -/
structure MsgResp where
  success : Bool
  message : String
  deriving Repr, DecidableEq

/-- A bare `{success}` response body. -/
structure OkResp where
  success : Bool
  deriving Repr, DecidableEq

/-- Python `str.isalnum` (ASCII fragment): non-empty and every character a
letter or a digit. -/
def pyIsAlnum (s : String) : Bool := !s.isEmpty && s.toList.all Char.isAlphanum

/-- `POST /student/register`. `newId` stands for `str(uuid.uuid4())`. The
inserted document has no `last_login_time` key and a `null`
`active_session_id` and `last_login_device`. -/
def student_register (d : StudentRegisterIn) (newId : String) (now : Int) (db : Db) :
    Except ApiErr (MsgResp × Db) :=
  if d.roll_number.length != 10 then
    .error (.badRequest "Roll number must be 10 characters")
  else if !(pyIsAlnum d.roll_number) then
    .error (.badRequest "Roll number must be alphanumeric")
  else match db.students.find? (fun st => st.roll_number == d.roll_number) with
  | some _ => .error (.badRequest "Roll number already exists")
  | none =>
    let student : Student :=
      { id := newId, name := d.name, roll_number := d.roll_number,
        year := d.year, semester := d.semester, branch := d.branch,
        section_label := d.section_label, email := d.email,
        password := "Student@123", active_session_id := none,
        last_login_device := none, last_login_time := none, created_at := now }
    .ok ({ success := true, message := "Registration successful" },
         { db with students := db.students ++ [student] })

/-- A student record as returned to clients: every stored field except
`password` (`{k: v for k, v in student.items() if k != 'password'}`). -/
structure StudentPublic where
  id : String
  name : String
  roll_number : String
  year : String
  semester : String
  branch : String
  section_label : String
  email : Option String
  active_session_id : Option String
  last_login_device : Option String
  last_login_time : Option Int
  created_at : Int
  deriving Repr, DecidableEq

/-- Drop the password from a student document. The handlers build the
response from the document as fetched before any session update, so the
snapshot may be stale. -/
def publicStudent (st : Student) : StudentPublic :=
  { id := st.id, name := st.name, roll_number := st.roll_number,
    year := st.year, semester := st.semester, branch := st.branch,
    section_label := st.section_label, email := st.email,
    active_session_id := st.active_session_id,
    last_login_device := st.last_login_device,
    last_login_time := st.last_login_time, created_at := st.created_at }

/-- The two 200-responses of `POST /student/login`: the device-confirmation
response (built while the stored state is left untouched), carrying the
stored device label and the minimal identity `{id, name, roll_number}`, or a
fresh login carrying the student minus password and the new session id. -/
inductive LoginOk where
  | requiresConfirmation (existing_device : Option String)
      (studentId name rollNumber : String)
  | loggedIn (student : StudentPublic) (session_id : String)
  deriving Repr, DecidableEq

/-- The `$set` of a fresh login / device-confirmed login. -/
def sessionUpdate (newSid : String) (now : Int) (st : Student) : Student :=
  { st with active_session_id := some newSid,
            last_login_device := some "Device", last_login_time := some now }

/-- `POST /student/login`. `newSid` stands for `secrets.token_urlsafe(32)`
(43 URL-safe characters, never the empty string). `if active_session_id:`
is Python truthiness, so the (unreachable) stored value `""` would count as
no active session. -/
def student_login (roll pw newSid : String) (now : Int) (db : Db) :
    Except ApiErr (LoginOk × Db) :=
  match db.students.find? (fun st => st.roll_number == roll) with
  | none => .error (.unauthorized "Invalid roll number or password")
  | some student =>
    if student.password != pw then
      .error (.unauthorized "Invalid roll number or password")
    else if (student.active_session_id.getD "").isEmpty then
      let students2 := updateFirst (fun st => st.id == student.id)
        (sessionUpdate newSid now) db.students
      .ok (.loggedIn (publicStudent student) newSid, { db with students := students2 })
    else
      .ok (.requiresConfirmation student.last_login_device
             student.id student.name student.roll_number, db)

/-- The two 200-responses of `POST /student/confirm-device-login`. -/
inductive ConfirmOk where
  | cancelled
  | loggedIn (student : StudentPublic) (session_id : String)
  deriving Repr, DecidableEq

/-- `POST /student/confirm-device-login`: re-validates credentials like
login; on `confirm_continue=false` returns a cancellation with no state
change; otherwise unconditionally installs a fresh session. -/
def confirm_device_login (roll pw : String) (confirm_continue : Bool)
    (newSid : String) (now : Int) (db : Db) : Except ApiErr (ConfirmOk × Db) :=
  match db.students.find? (fun st => st.roll_number == roll) with
  | none => .error (.unauthorized "Invalid credentials")
  | some student =>
    if student.password != pw then .error (.unauthorized "Invalid credentials")
    else if !confirm_continue then .ok (.cancelled, db)
    else
      let students2 := updateFirst (fun st => st.id == student.id)
        (sessionUpdate newSid now) db.students
      .ok (.loggedIn (publicStudent student) newSid, { db with students := students2 })

/-- `POST /student/validate-session`: the id of the student whose
`active_session_id` equals the token; `none` is the 401
"Session invalid or expired" response. -/
def validate_session (sessionId : String) (db : Db) : Option String :=
  (db.students.find? (fun st => st.active_session_id == some sessionId)).map (·.id)

/-! ## The attempt endpoints -/

/-- `POST /student/mark-review/{attempt_id}/{question_id}`: the handler
fetches the attempt and calls `.get` on the result; for a nonexistent
attempt that is `None.get(...)`, an uncaught `AttributeError` surfaced as a
500 error — modelled as `none`. Otherwise it toggles membership of the
question id (append at the end / `list.remove` the first occurrence) and
stores the list back. -/
def mark_for_review (attemptId questionId : String) (mark : Bool) (db : Db) :
    Option (OkResp × Db) :=
  match db.exam_attempts.find? (fun a => a.id == attemptId) with
  | none => none
  | some attempt =>
    let marked := attempt.marked_for_review
    let marked2 :=
      if mark && !(marked.contains questionId) then marked ++ [questionId]
      else if !mark && marked.contains questionId then marked.erase questionId
      else marked
    let attempts2 := updateFirst (fun a => a.id == attemptId)
      (fun a => { a with marked_for_review := marked2 }) db.exam_attempts
    some (⟨true⟩, { db with exam_attempts := attempts2 })

/-- `POST /student/suspicious-activity/{attempt_id}`: a bare `$inc` with no
existence check; a matched-zero update changes nothing and still returns
success. -/
def report_suspicious_activity (attemptId : String) (db : Db) : OkResp × Db :=
  let attempts2 := updateFirst (fun a => a.id == attemptId)
    (fun a => { a with suspicious_activity_count := a.suspicious_activity_count + 1 })
    db.exam_attempts
  (⟨true⟩, { db with exam_attempts := attempts2 })

/-- The question set `submit_exam` scores against:
`if attempt.get('question_ids'):` — the frozen list when present and
non-empty (Python truthiness), else all questions of the attempt's exam. -/
def resolveSubmitQuestions (db : Db) (attempt : ExamAttempt) : List Question :=
  match attempt.question_ids with
  | some ids =>
    if ids.isEmpty then db.questions.filter (fun q => q.exam_id == attempt.exam_id)
    else db.questions.filter (fun q => ids.contains q.id)
  | none => db.questions.filter (fun q => q.exam_id == attempt.exam_id)

/-- The response of `POST /student/submit-exam/{attempt_id}`. -/
structure SubmitResp where
  success : Bool
  score : Nat
  total : Nat
  deriving Repr, DecidableEq

/-- `POST /student/submit-exam/{attempt_id}`. -/
def submit_exam (attemptId : String) (now : Int) (db : Db) :
    Except ApiErr (SubmitResp × Db) :=
  match db.exam_attempts.find? (fun a => a.id == attemptId) with
  | none => .error (.notFound "Attempt not found")
  | some attempt =>
    let questions := resolveSubmitQuestions db attempt
    let score := scoreLoop attempt.answers questions
    let upd := fun (a : ExamAttempt) =>
      { a with completed := true, submitted_at := some now, score := some score,
               total_questions := some questions.length,
               time_taken := some (now - attempt.started_at) }
    let attempts2 := updateFirst (fun a => a.id == attemptId) upd db.exam_attempts
    let db2 := { db with exam_attempts := attempts2 }
    .ok ({ success := true, score := score, total := questions.length }, db2)

/-- The success response of `POST /student/start-exam/{exam_id}/{student_id}`. -/
structure StartResp where
  attempt_id : String
  exam : Exam
  questions : List Question
  time_limit : Int
  deriving Repr, DecidableEq

/-- `POST /student/start-exam/{exam_id}/{student_id}`. `newAttemptId` stands
for the generated uuid. The inserted attempt document is the `ExamAttempt`
model dump plus the frozen `question_ids` of the sectioned questions; the
full sectioned-question documents (correct answers included) are returned. -/
def start_exam (eid sid newAttemptId : String) (now : Int) (db : Db) :
    Except ApiErr (StartResp × Db) :=
  match db.students.find? (fun st => st.id == sid) with
  | none => .error (.notFound "Student not found")
  | some _ =>
    match db.exams.find? (fun e => e.id == eid) with
    | none => .error (.notFound "Exam not found")
    | some exam =>
      match db.exam_attempts.find?
          (fun a => a.student_id == sid && a.exam_id == eid && a.completed) with
      | some _ => .error (.badRequest "You have already completed this exam")
      | none =>
        let sq := sectionedQuestions db eid
        if sq.isEmpty then .error (.badRequest "No questions available for this exam")
        else
          let attempt : ExamAttempt :=
            { id := newAttemptId, student_id := sid, exam_id := eid,
              started_at := now, submitted_at := none, answers := [],
              marked_for_review := [], completed := false, score := none,
              total_questions := none, suspicious_activity_count := 0,
              question_ids := some (sq.map (·.id)), time_taken := none }
          .ok ({ attempt_id := newAttemptId, exam := exam, questions := sq,
                 time_limit := exam.time_limit },
               { db with exam_attempts := db.exam_attempts ++ [attempt] })

/-! ## Exam configuration and sections -/

/-- `POST /admin/configure-question-count/{exam_id}`: unconditional
`$set` of `questions_per_student`, success even on a matched-zero update. -/
def configure_question_count (eid : String) (count : Int) (db : Db) : OkResp × Db :=
  let exams2 := updateFirst (fun e => e.id == eid)
    (fun e => { e with questions_per_student := count }) db.exams
  (⟨true⟩, { db with exams := exams2 })

/-- `total_assigned`: the loop summing `len(section.get('question_ids', []))`. -/
def totalAssigned (secs : List SectionCfg) : Nat :=
  secs.foldl (fun acc s => acc + s.question_ids.length) 0

/-- The `(question_id, section_index)` pairs of the two nested stamping
loops of `organize_sections`, flattened in execution order. -/
def stampOps (secs : List SectionCfg) : List (String × Nat) :=
  (secs.enum.map (fun p => p.2.question_ids.map (fun qid => (qid, p.1)))).flatten

/-- The nested stamping loops: one
`update_one({"id": qid, "exam_id": eid}, {"$set": {"section_id": idx}})`
per pair, in execution order. -/
def stampAll (eid : String) (secs : List SectionCfg) (qs : List Question) :
    List Question :=
  (stampOps secs).foldl
    (fun acc op => updateFirst (fun q => q.id == op.1 && q.exam_id == eid)
      (fun q => { q with section_id := some op.2 }) acc) qs

/-- `all_assigned_ids`: the concatenation of all sections' `question_ids`. -/
def allAssignedIds (secs : List SectionCfg) : List String :=
  (secs.map (·.question_ids)).flatten

/-- The effect of the clearing `update_many` on one question: `$unset` the
`section_id` when the question belongs to the exam and is not assigned. -/
def unsetPoint (eid : String) (assigned : List String) (q : Question) : Question :=
  if q.exam_id == eid && !(assigned.contains q.id)
  then { q with section_id := none } else q

/-- The `update_many` clearing (`$unset`) `section_id` on every question of
the exam not assigned to any section. -/
def clearUnassigned (eid : String) (assigned : List String) (qs : List Question) :
    List Question :=
  qs.map (unsetPoint eid assigned)

/-- The success response of `POST /admin/organize-sections/{exam_id}`. -/
structure OrganizeResp where
  success : Bool
  questions_assigned : Nat
  deriving Repr, DecidableEq

/-- `POST /admin/organize-sections/{exam_id}`. -/
def organize_sections (eid : String) (secs : List SectionCfg) (db : Db) :
    Except ApiErr (OrganizeResp × Db) :=
  match db.exams.find? (fun e => e.id == eid) with
  | none => .error (.notFound "Exam not found")
  | some _ =>
    let total := totalAssigned secs
    let exams2 := updateFirst (fun e => e.id == eid)
      (fun e => { e with sections := secs, questions_per_student := (total : Int) })
      db.exams
    let questions2 := clearUnassigned eid (allAssignedIds secs)
      (stampAll eid secs db.questions)
    .ok ({ success := true, questions_assigned := total },
         { db with exams := exams2, questions := questions2 })

/-! ## `get_exam_data` -/

/-- A question reduced to its public-facing fields — the dict literal built
by `get_exam_data`; it has no `correct_answer` key. -/
structure PublicQuestion where
  id : String
  question_number : Nat
  question_text : String
  options : List Opt
  has_code : Bool
  code_snippet : Option String
  image_url : Option String
  section_id : Option Nat
  deriving Repr, DecidableEq

/-- The projection `get_exam_data` applies to each returned question. -/
def publicQuestion (q : Question) : PublicQuestion :=
  { id := q.id, question_number := q.question_number,
    question_text := q.question_text, options := q.options,
    has_code := q.has_code, code_snippet := q.code_snippet,
    image_url := q.image_url, section_id := q.section_id }

/-- The exam summary of the `get_exam_data` response. -/
structure ExamSummary where
  id : String
  subject : String
  branch : String
  year : String
  semester : String
  time_limit : Int
  sections : List SectionCfg
  total_questions : Nat
  deriving Repr, DecidableEq

/-- The attempt part of the `get_exam_data` response. -/
structure AttemptView where
  id : String
  answers : List (String × String)
  marked_for_review : List String
  deriving Repr, DecidableEq

/-- The response of `GET /student/exam/{exam_id}/{attempt_id}`. -/
structure ExamDataOut where
  exam : ExamSummary
  questions : List PublicQuestion
  attempt : AttemptView
  deriving Repr, DecidableEq

/-- `get_exam_data` reads `attempt.get("questions", [])`. No code path ever
writes a `questions` key on an exam-attempt document — `start_exam` stores
the frozen selection under `question_ids` — so the lookup always yields its
default, the empty list. -/
def attemptQuestionsKey (_ : ExamAttempt) : List String := []

/-- The `$in` test of an integer (or absent) `section_id` against the
selection list of question-id strings: BSON values of different types never
compare equal, so no element can match (and the list is empty anyway). -/
def sectionIdInSelection (_ : Option Nat) (_sel : List String) : Bool := false

/-- `GET /student/exam/{exam_id}/{attempt_id}`: exam summary, question list
(the `$or` selection query first, all exam questions when it yields none),
each question reduced to its public-facing fields, and the attempt's answers
and review flags. -/
def get_exam_data (eid attemptId : String) (db : Db) : Except ApiErr ExamDataOut :=
  match db.exams.find? (fun e => e.id == eid) with
  | none => .error (.notFound "Exam not found")
  | some exam =>
    match db.exam_attempts.find? (fun a => a.id == attemptId) with
    | none => .error (.notFound "Attempt not found")
    | some attempt =>
      let sel := attemptQuestionsKey attempt
      let qs0 := db.questions.filter (fun q => q.exam_id == eid &&
        (sectionIdInSelection q.section_id sel || sel.contains q.id))
      let qs := if qs0.isEmpty then db.questions.filter (fun q => q.exam_id == eid)
                else qs0
      .ok { exam := { id := exam.id, subject := exam.subject,
                      branch := exam.branch, year := exam.year,
                      semester := exam.semester, time_limit := exam.time_limit,
                      sections := exam.sections, total_questions := qs.length },
            questions := qs.map publicQuestion,
            attempt := { id := attempt.id, answers := attempt.answers,
                         marked_for_review := attempt.marked_for_review } }

/-- Spec-side (claim C8): the sum over the stored sections of the length of
each section's `question_ids` list. -/
def sectionSum (secs : List SectionCfg) : Nat :=
  (secs.map (fun s => s.question_ids.length)).sum

/-! ## Pointwise views of the `organize_sections` passes (proof machinery) -/

/-- The effect of the `(qid, idx)` stamping `update_one` on one question,
assuming it is the (unique) match. -/
def stampPoint (eid : String) (op : String × Nat) (q : Question) : Question :=
  if q.id == op.1 && q.exam_id == eid then { q with section_id := some op.2 } else q

/-- All stamping updates applied pointwise, in execution order. -/
def stampPoints (eid : String) (ops : List (String × Nat)) (q : Question) : Question :=
  ops.foldl (fun x op => stampPoint eid op x) q

/-- The last stamping op that matches a given question. -/
def lastMatchOp (eid : String) (ops : List (String × Nat)) (q : Question) :
    Option (String × Nat) :=
  (ops.filter (fun op => q.id == op.1 && q.exam_id == eid)).getLast?

/-- The pointwise effect of one full `organize_sections` pass (stamping
loops followed by the clearing `update_many`) on a single question. -/
def organizePoint (eid : String) (secs : List SectionCfg) (q : Question) : Question :=
  unsetPoint eid (allAssignedIds secs) (stampPoints eid (stampOps secs) q)

/-! ## Concrete data for the witnesses and counterexamples -/

/-- The spec's parsing example paragraph (testable property 4). -/
def c2exPara : String := "Q1: What is 2+2?\nA) 3\nB) 4*\nC) 5\nD) 6"

/-- What the parser yields on `c2exPara`. -/
def c2exParsed : ParsedQ :=
  { question_number := 1, question_text := "What is 2+2?", has_code := false,
    code_snippet := none,
    options := [⟨"A", "3"⟩, ⟨"B", "4"⟩, ⟨"C", "5"⟩, ⟨"D", "6"⟩],
    correct_answer := some "B" }

/-- A paragraph with two starred options (A and B). -/
def c2twoStars : String := "Q1: pick\nA) 3*\nB) 4*"

/-- A sectioned question with a correct answer (witness data). -/
def wq1 : Question :=
  { id := "q1", exam_id := "E", question_number := 1, question_text := "one",
    has_code := false, code_snippet := none, options := [⟨"A", "1"⟩, ⟨"B", "2"⟩],
    correct_answer := some "A", section_id := some 0, image_url := none,
    image_public_id := none, created_at := 0 }

/-- An unsectioned question of the same exam (witness data). -/
def wq2 : Question :=
  { id := "q2", exam_id := "E", question_number := 2, question_text := "two",
    has_code := false, code_snippet := none, options := [⟨"A", "1"⟩, ⟨"B", "2"⟩],
    correct_answer := some "B", section_id := none, image_url := none,
    image_public_id := none, created_at := 0 }

/-- A question whose `correct_answer` is stored as `null` (witness data for
the absent-correct-answer edge case). -/
def wqNull : Question :=
  { id := "q3", exam_id := "E", question_number := 3, question_text := "three",
    has_code := false, code_snippet := none, options := [⟨"A", "1"⟩],
    correct_answer := none, section_id := some 0, image_url := none,
    image_public_id := none, created_at := 0 }

/-- An in-progress attempt frozen to `["q1"]` (witness data). -/
def wAttempt : ExamAttempt :=
  { id := "A1", student_id := "S1", exam_id := "E", started_at := 100,
    submitted_at := none, answers := [("q1", "A"), ("q2", "B")],
    marked_for_review := [], completed := false, score := none,
    total_questions := none, suspicious_activity_count := 0,
    question_ids := some ["q1"], time_taken := none }

/-- A small database with one exam attempt (witness data). -/
def wDb : Db :=
  { exams := [], questions := [wq1, wq2], students := [],
    exam_attempts := [wAttempt] }

/-- An empty database (witness data). -/
def wEmptyDb : Db :=
  { exams := [], questions := [], students := [], exam_attempts := [] }

/-- A registration whose roll number is too short (the spec's example). -/
def wRegShort : StudentRegisterIn :=
  { name := "N", roll_number := "AB12", year := "1", semester := "1",
    branch := "CSE", section_label := "A", email := none }

/-- A registration whose roll number contains a hyphen (the spec's example). -/
def wRegHyphen : StudentRegisterIn :=
  { wRegShort with roll_number := "AB12-3456X" }

/-- A registration with a valid, fresh 10-character alphanumeric roll. -/
def wRegValid : StudentRegisterIn :=
  { wRegShort with roll_number := "AB12345678" }

/-- An exam with no sections (witness data for C8). -/
def c8exam : Exam :=
  { id := "E", branch := "CSE", year := "1", semester := "1", subject := "S",
    num_students := 10, time_limit := 60, created_at := 0,
    questions_uploaded := false, questions_count := 0,
    questions_per_student := 0, sections := [] }

/-- A database holding only `c8exam`. -/
def c8db : Db :=
  { exams := [c8exam], questions := [], students := [], exam_attempts := [] }

/-- A one-section input for organize (one question id). -/
def c8secs : List SectionCfg := [⟨"Sec1", ["q1"]⟩]

/-- `c8exam` after organizing with `c8secs`. -/
def c8exam2 : Exam :=
  { c8exam with sections := c8secs, questions_per_student := 1 }

/-- `c8db` after organizing with `c8secs`. -/
def c8db2 : Db := { c8db with exams := [c8exam2] }

/-- A registered student (witness data). -/
def wStudent : Student :=
  { id := "S1", name := "Stu", roll_number := "AB12345678", year := "1",
    semester := "1", branch := "CSE", section_label := "A", email := none,
    password := "Student@123", active_session_id := none,
    last_login_device := none, last_login_time := none, created_at := 0 }

/-- An exam with one section containing `q1` (witness data). -/
def wExam : Exam :=
  { id := "E", branch := "CSE", year := "1", semester := "1", subject := "S",
    num_students := 10, time_limit := 60, created_at := 0,
    questions_uploaded := true, questions_count := 2,
    questions_per_student := 1, sections := [⟨"Sec1", ["q1"]⟩] }

/-- A completed attempt of `wStudent` on `wExam` (witness data). -/
def wAttemptDone : ExamAttempt :=
  { wAttempt with
    id := "A2"
    completed := true
    submitted_at := some 200
    score := some 1
    total_questions := some 1
    time_taken := some 100 }

/-- A database with one completed attempt joinable to student and exam. -/
def wDb3 : Db :=
  { exams := [wExam], questions := [wq1, wq2], students := [wStudent],
    exam_attempts := [wAttemptDone] }

/-- The row `get_results` emits for `wDb3` (score 1/1: only the sectioned
`q1` counts, the answered but unsectioned `q2` does not). -/
def wRow3 : ResultRow :=
  { id := "A2"
    roll_number := "AB12345678"
    student_name := "Stu"
    subject := "S"
    score := 1
    total := 1
    score_text := "1/1"
    percentage := 10000
    date := some 200
    branch := "CSE"
    year := "1"
    semester := "1"
    section_label := "A" }

/-- A database ready for `start_exam`: sectioned `q1`, unsectioned `q2`,
no attempt yet (input data for C5). -/
def wDb5base : Db :=
  { exams := [wExam], questions := [wq1, wq2], students := [wStudent],
    exam_attempts := [] }

/-- The attempt `start_exam` creates on `wDb5base`: frozen
`question_ids = ["q1"]`. -/
def wAttempt5 : ExamAttempt :=
  { id := "A3", student_id := "S1", exam_id := "E", started_at := 100,
    submitted_at := none, answers := [], marked_for_review := [],
    completed := false, score := none, total_questions := none,
    suspicious_activity_count := 0, question_ids := some ["q1"],
    time_taken := none }

/-- `wDb5base` after the attempt is started. -/
def wDb5 : Db := { wDb5base with exam_attempts := [wAttempt5] }

/-- A student holding an active session `"tok1"` (witness data). -/
def wStudentS1 : Student :=
  { wStudent with
    id := "S2"
    roll_number := "ZZ12345678"
    active_session_id := some "tok1"
    last_login_device := some "Device"
    last_login_time := some 10 }

/-- A database with just that logged-in student (witness data). -/
def wDb4 : Db := { wEmptyDb with students := [wStudentS1] }

/-! ## General lemmas about the embedding primitives -/

theorem scoreLoop_go (ans : List (String × String)) (qs : List Question) (n : Nat) :
    qs.foldl (fun acc q => if isCorrect ans q then acc + 1 else acc) n
      = n + qs.countP (isCorrect ans) := by
  induction qs generalizing n with
  | nil => simp
  | cons q qs ih =>
    by_cases h : isCorrect ans q = true
    · rw [List.foldl_cons, if_pos h, ih, List.countP_cons, if_pos h]
      omega
    · rw [List.foldl_cons, if_neg h, ih, List.countP_cons, if_neg h]
      omega

/-- The scoring loop counts the questions whose stored answer equals the
correct answer. -/
theorem scoreLoop_eq_countP (ans : List (String × String)) (qs : List Question) :
    scoreLoop ans qs = qs.countP (isCorrect ans) := by
  simpa [scoreLoop] using scoreLoop_go ans qs 0

theorem find?_updateFirst {α} {p : α → Bool} {f : α → α} {l : List α} {x : α}
    (hf : ∀ y, p y = true → p (f y) = true) (h : l.find? p = some x) :
    (updateFirst p f l).find? p = some (f x) := by
  induction l with
  | nil => simp at h
  | cons a as ih =>
    by_cases hpa : p a = true
    · rw [List.find?_cons_of_pos _ hpa] at h
      obtain rfl : a = x := by injection h
      rw [updateFirst, if_pos hpa]
      exact List.find?_cons_of_pos _ (hf a hpa)
    · rw [List.find?_cons_of_neg _ hpa] at h
      rw [updateFirst, if_neg hpa]
      rw [List.find?_cons_of_neg _ hpa]
      exact ih h

theorem updateFirst_no_match {α} {p : α → Bool} {f : α → α} {l : List α}
    (h : l.find? p = none) : updateFirst p f l = l := by
  induction l with
  | nil => rfl
  | cons a as ih =>
    by_cases hpa : p a = true
    · rw [List.find?_cons_of_pos _ hpa] at h
      exact absurd h (by simp)
    · rw [List.find?_cons_of_neg _ hpa] at h
      rw [updateFirst, if_neg hpa, ih h]

theorem mem_updateFirst_pairwise {α} {p : α → Bool} {f : α → α} {l : List α}
    (hpw : l.Pairwise (fun a b => ¬(p a = true ∧ p b = true))) {y : α}
    (hy : y ∈ updateFirst p f l) :
    (y ∈ l ∧ p y = false) ∨ ∃ x, x ∈ l ∧ p x = true ∧ y = f x := by
  induction l with
  | nil => cases hy
  | cons a as ih =>
    rw [List.pairwise_cons] at hpw
    obtain ⟨ha, hpw2⟩ := hpw
    by_cases hpa : p a = true
    · rw [updateFirst, if_pos hpa] at hy
      rcases List.mem_cons.mp hy with rfl | hmem
      · exact Or.inr ⟨a, List.mem_cons_self .., hpa, rfl⟩
      · have hnot := ha y hmem
        have hpy : p y = false := by
          cases hyy : p y
          · rfl
          · exact absurd ⟨hpa, hyy⟩ hnot
        exact Or.inl ⟨List.mem_cons_of_mem _ hmem, hpy⟩
    · rw [updateFirst, if_neg hpa] at hy
      rcases List.mem_cons.mp hy with rfl | hmem
      · have hpy : p y = false := by
          cases hyy : p y
          · rfl
          · exact absurd hyy hpa
        exact Or.inl ⟨List.mem_cons_self .., hpy⟩
      · rcases ih hpw2 hmem with ⟨h1, h2⟩ | ⟨x, hx1, hx2, hx3⟩
        · exact Or.inl ⟨List.mem_cons_of_mem _ h1, h2⟩
        · exact Or.inr ⟨x, List.mem_cons_of_mem _ hx1, hx2, hx3⟩

theorem find?_updateFirst_fresh {α} {p q : α → Bool} {f : α → α} {l : List α} {x : α}
    (hq : ∀ y ∈ l, q y = false) (hfx : q (f x) = true) (h : l.find? p = some x) :
    (updateFirst p f l).find? q = some (f x) := by
  induction l with
  | nil => simp at h
  | cons a as ih =>
    by_cases hpa : p a = true
    · rw [List.find?_cons_of_pos _ hpa] at h
      obtain rfl : a = x := by injection h
      rw [updateFirst, if_pos hpa]
      exact List.find?_cons_of_pos _ hfx
    · rw [List.find?_cons_of_neg _ hpa] at h
      rw [updateFirst, if_neg hpa]
      rw [List.find?_cons_of_neg _ (by simp [hq a (List.mem_cons_self ..)])]
      exact ih (fun y hy => hq y (List.mem_cons_of_mem _ hy)) h

/-- With pairwise-distinct student ids, looking a member up by its own id
finds exactly it. -/
theorem find?_id_self {l : List Student}
    (hnodup : (l.map (fun x => x.id)).Nodup) {st : Student} (hmem : st ∈ l) :
    l.find? (fun x => x.id == st.id) = some st := by
  induction l with
  | nil => cases hmem
  | cons a as ih =>
    rw [List.map_cons, List.nodup_cons] at hnodup
    obtain ⟨hna, hnd⟩ := hnodup
    rcases List.mem_cons.mp hmem with rfl | hmem2
    · exact List.find?_cons_of_pos _ (by simp)
    · have hane : ¬(a.id == st.id) = true := by
        intro he
        rw [beq_iff_eq] at he
        exact hna (he ▸ List.mem_map_of_mem _ hmem2)
      rw [List.find?_cons_of_neg (p := fun x : Student => x.id == st.id) _ hane]
      exact ih hnd hmem2

/-! ## Claim C1 -/

/-- Claim C1: for every attempt present in `exam_attempts`, `submit_exam`
resolves the scoring question set as the attempt's frozen `question_ids`
when present and non-empty and otherwise as all questions with the attempt's
`exam_id`; the returned score is the number of questions in that set whose
`correct_answer` equals the stored answer, the returned total is the size of
the set, the attempt is updated with `completed=true`, `submitted_at=now`,
that score, that total (and the elapsed `time_taken`), and no other
collection changes. -/
theorem C1_submit_scoring (db : Db) (aid : String) (a : ExamAttempt) (now : Int)
    (h : db.exam_attempts.find? (fun x => x.id == aid) = some a) :
    (∀ ids, a.question_ids = some ids → ids ≠ [] →
      resolveSubmitQuestions db a = db.questions.filter (fun q => ids.contains q.id)) ∧
    (a.question_ids = none ∨ a.question_ids = some [] →
      resolveSubmitQuestions db a =
        db.questions.filter (fun q => q.exam_id == a.exam_id)) ∧
    (submit_exam aid now db).toOption.map Prod.fst =
      some { success := true,
             score := (resolveSubmitQuestions db a).countP (isCorrect a.answers),
             total := (resolveSubmitQuestions db a).length } ∧
    (submit_exam aid now db).toOption.map
        (fun r => r.2.exam_attempts.find? (fun x => x.id == aid)) =
      some (some { a with
        completed := true
        submitted_at := some now
        score := some ((resolveSubmitQuestions db a).countP (isCorrect a.answers))
        total_questions := some ((resolveSubmitQuestions db a).length)
        time_taken := some (now - a.started_at) }) ∧
    (submit_exam aid now db).toOption.map
        (fun r => (r.2.exams, r.2.questions, r.2.students)) =
      some (db.exams, db.questions, db.students) := by
  have hfind := find?_updateFirst (l := db.exam_attempts) (x := a)
    (p := fun x => x.id == aid)
    (f := fun b => { b with
      completed := true
      submitted_at := some now
      score := some (scoreLoop a.answers (resolveSubmitQuestions db a))
      total_questions := some (resolveSubmitQuestions db a).length
      time_taken := some (now - a.started_at) })
    (fun y hy => hy) h
  refine ⟨?_, ?_, ?_, ?_, ?_⟩
  · intro ids hq hne
    simp [resolveSubmitQuestions, hq, hne]
  · rintro (hq | hq) <;> simp [resolveSubmitQuestions, hq]
  · simp only [submit_exam, h, Except.toOption]
    simp [scoreLoop_eq_countP]
  · simp only [submit_exam, h, Except.toOption]
    simp only [Option.map_some']
    rw [hfind]
    simp [scoreLoop_eq_countP]
  · simp only [submit_exam, h, Except.toOption]
    simp

/-- Witness for C1: a concrete database where the frozen list `["q1"]`
excludes the answered question `q2`; submitting yields score 1 of 1 and the
stored attempt is completed. -/
theorem C1_submit_scoring_witness :
    (resolveSubmitQuestions wDb wAttempt = wDb.questions.filter
      (fun q => (["q1"] : List String).contains q.id)) ∧
    (submit_exam "A1" 250 wDb).toOption.map Prod.fst =
      some { success := true,
             score := (resolveSubmitQuestions wDb wAttempt).countP (isCorrect wAttempt.answers),
             total := (resolveSubmitQuestions wDb wAttempt).length } ∧
    (submit_exam "A1" 250 wDb).toOption.map
        (fun r => r.2.exam_attempts.find? (fun x => x.id == "A1")) =
      some (some { wAttempt with
        completed := true
        submitted_at := some 250
        score := some ((resolveSubmitQuestions wDb wAttempt).countP (isCorrect wAttempt.answers))
        total_questions := some ((resolveSubmitQuestions wDb wAttempt).length)
        time_taken := some (250 - wAttempt.started_at) }) := by
  have main := C1_submit_scoring wDb "A1" wAttempt 250 (by decide)
  exact ⟨main.1 ["q1"] (by decide) (by decide), main.2.2.1, main.2.2.2.1⟩

/-! ## Claim C2 -/

theorem orElse_self_none {α} (o : Option α) : o.orElse (fun _ => none) = o := by
  cases o <;> rfl

/-- The correct-answer scan, characterised: the final letter is the last
starred option's (falling back to the initial accumulator), and every option
is stored star-stripped. -/
theorem applyStar_go (opts : List Opt) (c : Option String) (acc : List Opt) :
    opts.foldl starStep (c, acc) =
      ((lastStarLetter opts).orElse (fun _ => c), acc ++ opts.map stripStarOpt) := by
  induction opts generalizing c acc with
  | nil => simp [lastStarLetter, Option.orElse]
  | cons o rest ih =>
    rw [List.foldl_cons]
    by_cases hmem : '*' ∈ o.value.data
    · have hstep : starStep (c, acc) o = (some o.letter, acc ++ [stripStarOpt o]) := by
        simp [starStep, stripStarOpt, String.toList, hmem]
      rw [hstep, ih, lastStarLetter]
      cases hr : lastStarLetter rest <;>
        simp [hr, hmem, Option.orElse, stripStarOpt, String.toList]
    · have hstep : starStep (c, acc) o = (c, acc ++ [o]) := by
        simp [starStep, String.toList, hmem]
      rw [hstep, ih, lastStarLetter]
      cases hr : lastStarLetter rest <;>
        simp [hr, hmem, Option.orElse, stripStarOpt, String.toList]

theorem lastStarLetter_eq_none (l : List Opt) :
    lastStarLetter l = none ↔ ∀ o ∈ l, o.value.toList.contains '*' = false := by
  induction l with
  | nil => simp [lastStarLetter]
  | cons o rest ih =>
    rw [lastStarLetter]
    cases hr : lastStarLetter rest
    · by_cases hmem : '*' ∈ o.value.data
      · rw [if_pos (by simpa [String.toList] using hmem)]
        constructor
        · intro hC; cases hC
        · intro hall
          exact absurd (hall o (List.mem_cons_self ..)) (by simp [hmem, String.toList])
      · rw [if_neg (by simpa [String.toList] using hmem)]
        have hrest := ih.mp hr
        constructor
        · intro _ x hx
          rcases List.mem_cons.mp hx with rfl | hx2
          · simpa [String.toList] using hmem
          · exact hrest x hx2
        · intro _; rfl
    · constructor
      · intro hC; cases hC
      · intro hall
        have h0 : lastStarLetter rest = none :=
          ih.mpr (fun x hx => hall x (List.mem_cons_of_mem _ hx))
        rw [hr] at h0; cases h0

/-- Claim C2 (amended): for every parsed question paragraph,
`correct_answer` is the letter of the LAST option (in option order) whose
value contains `'*'` — absent when no option does — and every starred
option's stored value has its asterisks stripped (others stored unchanged);
the claim's single-starred example still yields `correct_answer = "B"` with
option B stored as `"4"`. -/
theorem C2_star_scan (para : String) (q : ParsedQ)
    (h : parseParagraph para = some q) :
    q.correct_answer = lastStarLetter (rawOptions para) ∧
    q.options = (rawOptions para).map stripStarOpt ∧
    (q.correct_answer = none ↔
      ∀ o ∈ rawOptions para, o.value.toList.contains '*' = false) := by
  simp only [parseParagraph] at h
  by_cases he : (pyStrip para).isEmpty
  · rw [if_pos he] at h; cases h
  · rw [if_neg he] at h
    cases hq : qMatch (pyStrip para) with
    | none => rw [hq] at h; cases h
    | some pr =>
      obtain ⟨qnum, fullText⟩ := pr
      rw [hq] at h
      by_cases ho : (parseLines (splitNl fullText)).options.isEmpty
      · simp only [ho, if_true] at h; cases h
      · simp only [ho, if_false] at h
        have hraw : rawOptions para = (parseLines (splitNl fullText)).options := by
          rw [rawOptions, hq]
        have happ := applyStar_go (parseLines (splitNl fullText)).options none []
        rw [orElse_self_none] at happ
        obtain rfl : _ = q := Option.some.inj h
        refine ⟨?_, ?_, ?_⟩
        · show (applyStar (parseLines (splitNl fullText)).options).1 = _
          rw [applyStar, happ, hraw]
        · show (applyStar (parseLines (splitNl fullText)).options).2 = _
          rw [applyStar, happ, hraw]
          simp
        · show (applyStar (parseLines (splitNl fullText)).options).1 = none ↔ _
          rw [applyStar, happ, hraw]
          exact lastStarLetter_eq_none _

/-- Counterexample to C2 as stated: in `Q1: pick / A) 3* / B) 4*` the first
starred option (in option order) is A, but the parser stores
`correct_answer = "B"` — the last starred option's letter. -/
theorem C2_star_scan_counterexample :
    (parseParagraph c2twoStars).map (fun q => q.correct_answer) = some (some "B") ∧
    firstStarLetter (rawOptions c2twoStars) = some "A" ∧
    some (some "B") ≠ some (some ("A" : String)) := by
  refine ⟨by decide, by decide, by decide⟩

/-- Witness for the amended C2: the spec's example paragraph (one starred
option). -/
theorem C2_star_scan_witness :
    parseParagraph c2exPara = some c2exParsed ∧
    (c2exParsed.correct_answer = lastStarLetter (rawOptions c2exPara) ∧
     c2exParsed.options = (rawOptions c2exPara).map stripStarOpt ∧
     (c2exParsed.correct_answer = none ↔
       ∀ o ∈ rawOptions c2exPara, o.value.toList.contains '*' = false)) :=
  ⟨by decide, C2_star_scan c2exPara c2exParsed (by decide)⟩

/-! ## Claim C9 -/

/-- Claim C9: registration fails as invalid input for every roll number that
is not exactly 10 alphanumeric characters and for every roll number already
present; a valid fresh roll number succeeds, storing the fixed default
password `"Student@123"`, no active session and the current timestamp; the
response is a bare `{success, message}` body and carries no password. -/
theorem C9_register (d : StudentRegisterIn) (newId : String) (now : Int) (db : Db) :
    (d.roll_number.length ≠ 10 →
      student_register d newId now db =
        .error (.badRequest "Roll number must be 10 characters")) ∧
    (d.roll_number.length = 10 → pyIsAlnum d.roll_number = false →
      student_register d newId now db =
        .error (.badRequest "Roll number must be alphanumeric")) ∧
    (d.roll_number.length = 10 → pyIsAlnum d.roll_number = true →
      (∃ st ∈ db.students, st.roll_number = d.roll_number) →
      student_register d newId now db =
        .error (.badRequest "Roll number already exists")) ∧
    (d.roll_number.length = 10 → pyIsAlnum d.roll_number = true →
      (∀ st ∈ db.students, st.roll_number ≠ d.roll_number) →
      student_register d newId now db =
        .ok ({ success := true, message := "Registration successful" },
             { db with students := db.students ++
                 [{ id := newId, name := d.name, roll_number := d.roll_number,
                    year := d.year, semester := d.semester, branch := d.branch,
                    section_label := d.section_label, email := d.email,
                    password := "Student@123", active_session_id := none,
                    last_login_device := none, last_login_time := none,
                    created_at := now }] })) := by
  refine ⟨?_, ?_, ?_, ?_⟩
  · intro hlen
    simp [student_register, hlen]
  · intro hlen halnum
    simp [student_register, hlen, halnum]
  · intro hlen halnum hdup
    have hfind : (db.students.find? (fun st => st.roll_number == d.roll_number)).isSome := by
      rw [List.find?_isSome]
      obtain ⟨st, hmem, hroll⟩ := hdup
      exact ⟨st, hmem, by simp [hroll]⟩
    obtain ⟨st, hst⟩ := Option.isSome_iff_exists.mp hfind
    simp [student_register, hlen, halnum, hst]
  · intro hlen halnum hfresh
    have hfind : db.students.find? (fun st => st.roll_number == d.roll_number) = none := by
      rw [List.find?_eq_none]
      intro st hmem
      simpa using hfresh st hmem
    simp [student_register, hlen, halnum, hfind]

/-- Witness for C9: the spec's two failing examples and one fresh success. -/
theorem C9_register_witness :
    student_register wRegShort "id1" 0 wEmptyDb =
      .error (.badRequest "Roll number must be 10 characters") ∧
    student_register wRegHyphen "id1" 0 wEmptyDb =
      .error (.badRequest "Roll number must be alphanumeric") ∧
    student_register wRegValid "id1" 0 wEmptyDb =
      .ok ({ success := true, message := "Registration successful" },
           { wEmptyDb with students := wEmptyDb.students ++
               [{ id := "id1", name := wRegValid.name,
                  roll_number := wRegValid.roll_number, year := wRegValid.year,
                  semester := wRegValid.semester, branch := wRegValid.branch,
                  section_label := wRegValid.section_label,
                  email := wRegValid.email, password := "Student@123",
                  active_session_id := none, last_login_device := none,
                  last_login_time := none, created_at := 0 }] }) :=
  ⟨(C9_register wRegShort "id1" 0 wEmptyDb).1 (by decide),
   (C9_register wRegHyphen "id1" 0 wEmptyDb).2.1 (by decide) (by decide),
   (C9_register wRegValid "id1" 0 wEmptyDb).2.2.2 (by decide) (by decide)
     (by intro st hmem; cases hmem)⟩

/-! ## Claim C6 -/

/-- Claim C6 (amended): for an `attempt_id` matching no document,
`suspicious-activity` succeeds via a matched-zero update with no state
change and `submit-exam` fails as not-found, but `mark-for-review` does not
silently succeed — it trips an uncaught `AttributeError`
(`None.get(...)`), surfaced as a 500 error (`none` in the model). -/
theorem C6_missing_attempt (db : Db) (aid qid : String) (mark : Bool) (now : Int)
    (h : db.exam_attempts.find? (fun a => a.id == aid) = none) :
    mark_for_review aid qid mark db = none ∧
    report_suspicious_activity aid db = ({ success := true }, db) ∧
    submit_exam aid now db = .error (.notFound "Attempt not found") := by
  refine ⟨?_, ?_, ?_⟩
  · simp [mark_for_review, h]
  · simp [report_suspicious_activity, updateFirst_no_match h]
  · simp [submit_exam, h]

/-- Counterexample to C6 as stated: on a database with no attempts,
`mark-for-review` does not return the success response the claim promises —
it yields no response at all (an uncaught error). -/
theorem C6_missing_attempt_counterexample :
    mark_for_review "A" "Q" true wEmptyDb = none ∧
    mark_for_review "A" "Q" true wEmptyDb ≠
      some ({ success := true }, wEmptyDb) := by
  refine ⟨by decide, by decide⟩

/-- Witness for the amended C6 on the empty database. -/
theorem C6_missing_attempt_witness :
    mark_for_review "A" "Q" true wEmptyDb = none ∧
    report_suspicious_activity "A" wEmptyDb = ({ success := true }, wEmptyDb) ∧
    submit_exam "A" 0 wEmptyDb = .error (.notFound "Attempt not found") :=
  C6_missing_attempt wEmptyDb "A" "Q" true 0 (by decide)

/-! ## Claim C8 -/

theorem totalAssigned_go (secs : List SectionCfg) (n : Nat) :
    secs.foldl (fun acc s => acc + s.question_ids.length) n = n + sectionSum secs := by
  induction secs generalizing n with
  | nil => simp [sectionSum]
  | cons s rest ih =>
    rw [List.foldl_cons, ih]
    simp [sectionSum]
    omega

theorem totalAssigned_eq_sectionSum (secs : List SectionCfg) :
    totalAssigned secs = sectionSum secs := by
  simpa [totalAssigned] using totalAssigned_go secs 0

/-- Claim C8 (amended): immediately after every successful
`organize_sections` save, the stored exam's `questions_per_student` equals
the sum over its stored sections of each section's `question_ids` length
(and the returned count equals that sum); the equality is not an invariant
across all writers of the exam document — `configure_question_count`
overwrites `questions_per_student` unconditionally without touching
`sections`. -/
theorem C8_qps_after_organize (db : Db) (eid : String) (secs : List SectionCfg)
    (resp : OrganizeResp) (db2 : Db)
    (h : organize_sections eid secs db = .ok (resp, db2)) :
    (db2.exams.find? (fun e => e.id == eid)).map
        (fun e => (e.questions_per_student, e.sections)) =
      some (((sectionSum secs : Nat) : Int), secs) ∧
    resp.questions_assigned = sectionSum secs := by
  cases hfind : db.exams.find? (fun e => e.id == eid) with
  | none =>
    rw [organize_sections, hfind] at h
    cases h
  | some e0 =>
    have hcomp : organize_sections eid secs db =
        .ok ({ success := true, questions_assigned := totalAssigned secs },
             { db with
                 exams := updateFirst (fun e => e.id == eid)
                   (fun e => { e with
                     sections := secs
                     questions_per_student := ((totalAssigned secs : Nat) : Int) })
                   db.exams
                 questions := clearUnassigned eid (allAssignedIds secs)
                   (stampAll eid secs db.questions) }) := by
      rw [organize_sections, hfind]
    rw [hcomp] at h
    injection h with hpair
    injection hpair with hresp hdb2
    subst hresp
    subst hdb2
    constructor
    · have hupd := find?_updateFirst (l := db.exams) (x := e0)
        (p := fun e => e.id == eid)
        (f := fun e => { e with
          sections := secs
          questions_per_student := ((totalAssigned secs : Nat) : Int) })
        (fun y hy => hy) hfind
      simp only [hupd]
      simp [totalAssigned_eq_sectionSum]
    · simp [totalAssigned_eq_sectionSum]

/-- Counterexample to C8 as stated: `configure_question_count` writes
`questions_per_student = 5` onto an exam whose sections sum to 0, so the
"always equals" invariant fails across this writer. -/
theorem C8_qps_counterexample :
    ((configure_question_count "E" 5 c8db).2.exams.find? (fun e => e.id == "E")).map
        (fun e => (e.questions_per_student, ((sectionSum e.sections : Nat) : Int))) =
      some (5, 0) ∧
    (5 : Int) ≠ (0 : Int) := by
  refine ⟨by decide, by decide⟩

/-- Witness for the amended C8: organizing `c8db` with one section of one
question stores `questions_per_student = 1 = sectionSum`. -/
theorem C8_qps_witness :
    (c8db2.exams.find? (fun e => e.id == "E")).map
        (fun e => (e.questions_per_student, e.sections)) =
      some (((sectionSum c8secs : Nat) : Int), c8secs) ∧
    (({ success := true, questions_assigned := totalAssigned c8secs } : OrganizeResp)).questions_assigned =
      sectionSum c8secs :=
  C8_qps_after_organize c8db "E" c8secs
    { success := true, questions_assigned := totalAssigned c8secs } c8db2 (by rfl)

/-! ## Claim C4 -/

/-- Claim C4: a student document holds a single `active_session_id` pointer
(one `Option` field, so at most one current session by construction). With
an active, non-empty session `s1` whose only holder is the student: a Login
call returns the device-confirmation response and leaves the database
unchanged, while ConfirmDeviceLogin with valid credentials and
`confirm_continue=true` overwrites `active_session_id` with the fresh token
`s2`, after which ValidateSession rejects `s1` as unauthorized and accepts
`s2` as this student. The non-emptiness of `s1` and the uniqueness of
holders and ids reflect reachable states: tokens are 32 random url-safe
bytes and ids are uuids. -/
theorem C4_single_active_session (db : Db) (roll pw s1 s2 anySid : String)
    (st : Student) (now now2 : Int)
    (hfind : db.students.find? (fun x => x.roll_number == roll) = some st)
    (hpw : st.password = pw)
    (hactive : st.active_session_id = some s1)
    (hs1ne : s1 ≠ "")
    (hnodup : (db.students.map (fun x => x.id)).Nodup)
    (hold : ∀ t ∈ db.students, t.active_session_id = some s1 → t.id = st.id)
    (hfresh : ∀ t ∈ db.students, t.active_session_id ≠ some s2)
    (hs2s1 : s2 ≠ s1) :
    student_login roll pw anySid now db =
      .ok (.requiresConfirmation st.last_login_device st.id st.name
             st.roll_number, db) ∧
    (confirm_device_login roll pw true s2 now2 db).toOption.map
        (fun r => (r.1, validate_session s1 r.2, validate_session s2 r.2)) =
      some (.loggedIn (publicStudent st) s2, none, some st.id) := by
  have hne1 : ¬((st.active_session_id.getD "").isEmpty = true) := by
    rw [hactive]
    simp [String.isEmpty_iff, hs1ne]
  constructor
  · simp only [student_login, hfind]
    rw [hpw]
    simp [hne1]
  · have hmem : st ∈ db.students := List.mem_of_find?_eq_some hfind
    have hfid : db.students.find? (fun x => x.id == st.id) = some st :=
      find?_id_self hnodup hmem
    have hpairwise : db.students.Pairwise
        (fun a b => ¬((a.id == st.id) = true ∧ (b.id == st.id) = true)) := by
      have h2 := List.pairwise_map.mp hnodup
      refine h2.imp ?_
      intro a b hab ⟨ha, hb⟩
      rw [beq_iff_eq] at ha hb
      exact hab (ha.trans hb.symm)
    have hval1 : validate_session s1
        { db with students := updateFirst (fun x : Student => x.id == st.id) (sessionUpdate s2 now2) db.students } = none := by
      have hnone : (updateFirst (fun x => x.id == st.id)
          (sessionUpdate s2 now2) db.students).find?
            (fun x => x.active_session_id == some s1) = none := by
        rw [List.find?_eq_none]
        intro x hx
        rcases mem_updateFirst_pairwise hpairwise hx with ⟨hxl, hxp⟩ | ⟨y, hyl, _, rfl⟩
        · intro hcontra
          rw [beq_iff_eq] at hcontra
          have hxid := hold x hxl hcontra
          simp [hxid] at hxp
        · intro hcontra
          rw [beq_iff_eq] at hcontra
          have : s2 = s1 := by simpa [sessionUpdate] using hcontra
          exact hs2s1 this
      simp [validate_session, hnone]
    have hval2 : validate_session s2
        { db with students := updateFirst (fun x : Student => x.id == st.id) (sessionUpdate s2 now2) db.students } = some st.id := by
      have hq : ∀ x ∈ db.students,
          (fun x => x.active_session_id == some s2) x = false := by
        intro x hx
        simpa using hfresh x hx
      have hfound := find?_updateFirst_fresh (f := sessionUpdate s2 now2)
        hq (by simp [sessionUpdate]) hfid
      simp [validate_session, hfound, sessionUpdate]
    have hconf : confirm_device_login roll pw true s2 now2 db =
        .ok (.loggedIn (publicStudent st) s2,
             { db with students := updateFirst (fun x : Student => x.id == st.id) (sessionUpdate s2 now2) db.students }) := by
      simp only [confirm_device_login, hfind]
      rw [hpw]
      simp
    rw [hconf]
    simp only [Except.toOption, Option.map_some']
    rw [hval1, hval2]

/-- Witness for C4 on `wDb4`: logging in again returns device confirmation
and leaves the state unchanged; confirm-device-login with `"tok2"` makes
validating `"tok1"` fail and `"tok2"` succeed. -/
theorem C4_single_active_session_witness :
    student_login "ZZ12345678" "Student@123" "whatever" 50 wDb4 =
      .ok (.requiresConfirmation wStudentS1.last_login_device wStudentS1.id
             wStudentS1.name wStudentS1.roll_number, wDb4) ∧
    (confirm_device_login "ZZ12345678" "Student@123" true "tok2" 60 wDb4).toOption.map
        (fun r => (r.1, validate_session "tok1" r.2, validate_session "tok2" r.2)) =
      some (.loggedIn (publicStudent wStudentS1) "tok2", none, some wStudentS1.id) :=
  C4_single_active_session wDb4 "ZZ12345678" "Student@123" "tok1" "tok2"
    "whatever" wStudentS1 50 60 (by decide) (by decide) (by decide) (by decide)
    (by decide) (by decide) (by decide) (by decide)

/-! ## Claim C5 -/

/-- Claim C5, evaluated at the failing input: `start_exam` freezes
`question_ids = ["q1"]` onto the attempt, yet `get_exam_data` returns BOTH
questions of the exam — its primary query matches against the
`questions` key of the attempt document, which no writer ever sets
(`start_exam` stores the selection under `question_ids`), so the query
always yields none and the handler always falls back to all exam questions.
Under the claim's reading (match against the ids frozen at start time) the
returned list would be `["q1"]` alone. The projection half of the claim does
hold: the returned rows are the public fields and carry no
`correct_answer`. -/
theorem C5_get_exam_data_wrong_key :
    start_exam "E" "S1" "A3" 100 wDb5base =
      .ok ({ attempt_id := "A3", exam := wExam, questions := [wq1],
             time_limit := 60 }, wDb5) ∧
    (get_exam_data "E" "A3" wDb5).toOption.map
        (fun out => out.questions.map (fun q => q.id)) = some ["q1", "q2"] ∧
    some ["q1", "q2"] ≠ some ["q1"] ∧
    (get_exam_data "E" "A3" wDb5).toOption.map (fun out => out.questions) =
      some [publicQuestion wq1, publicQuestion wq2] := by
  refine ⟨by rfl, by rfl, by decide, by rfl⟩

/-! ## Claim C3 -/

theorem pctBp_zero (s : Nat) : pctBp s 0 = 0 := by
  simp [pctBp]

theorem resultRowOf_props (b y s subj sec : Option String) (db : Db)
    (attempt : ExamAttempt) (row : ResultRow)
    (h : resultRowOf b y s subj sec db attempt = some row) :
    row.score = (sectionedQuestions db attempt.exam_id).countP (isCorrect attempt.answers) ∧
    row.total = (sectionedQuestions db attempt.exam_id).length ∧
    row.percentage = pctBp row.score row.total := by
  rw [resultRowOf] at h
  split at h
  · rename_i student exam hst hex
    have hexid : exam.id = attempt.exam_id := by
      have := List.find?_some hex
      simpa using this
    split at h
    · cases h
    · obtain rfl := Option.some.inj h
      rw [hexid]
      exact ⟨by simp [scoreLoop_eq_countP], rfl, rfl⟩
  · cases h

theorem examResultRowOf_props (db : Db) (sq : List Question)
    (a : ExamAttempt) (row : ExamResultRow)
    (h : examResultRowOf db sq a = some row) :
    row.score = sq.countP (isCorrect a.answers) ∧
    row.total_questions = sq.length ∧
    row.percentage = pctBp row.score row.total_questions := by
  rw [examResultRowOf] at h
  cases hst : db.students.find? (fun st => st.id == a.student_id) with
  | none => rw [hst] at h; cases h
  | some student =>
    rw [hst] at h
    simp only [Option.map_some'] at h
    obtain rfl := Option.some.inj h
    exact ⟨by simp [scoreLoop_eq_countP], rfl, rfl⟩

theorem studentResultRowOf_props (db : Db) (a : ExamAttempt) (row : StudentResultRow)
    (h : studentResultRowOf db a = some row) :
    row.score = (sectionedQuestions db a.exam_id).countP (isCorrect a.answers) ∧
    row.total = (sectionedQuestions db a.exam_id).length ∧
    row.percentage = pctBp row.score row.total := by
  rw [studentResultRowOf] at h
  cases hex : db.exams.find? (fun e => e.id == a.exam_id) with
  | none => rw [hex] at h; cases h
  | some exam =>
    rw [hex] at h
    simp only [Option.map_some'] at h
    obtain rfl := Option.some.inj h
    exact ⟨by simp [scoreLoop_eq_countP], rfl, rfl⟩

/-- Claim C3: every row emitted by the three results endpoints reports a
score counting only the questions of the attempt's exam that currently have
a non-absent `section_id` (unsectioned questions are excluded even if
answered — the count ranges over the sectioned filter only), and a
percentage equal to `round(score / sectioned_count * 100, 2)` when the
sectioned count is positive and exactly 0 when it is 0 (no
division-by-zero failure). -/
theorem C3_sectioned_scoring (db : Db) :
    (∀ b y s subj sec row, row ∈ get_results b y s subj sec db →
      ∃ attempt, attempt ∈ db.exam_attempts ∧ attempt.completed = true ∧
        row.score = (sectionedQuestions db attempt.exam_id).countP (isCorrect attempt.answers) ∧
        row.total = (sectionedQuestions db attempt.exam_id).length ∧
        row.percentage = pctBp row.score row.total ∧
        (row.total = 0 → row.percentage = 0)) ∧
    (∀ eid out, get_exam_results eid db = .ok out →
      out.total_questions = (sectionedQuestions db eid).length ∧
      ∀ row ∈ out.results,
        ∃ attempt, attempt ∈ db.exam_attempts ∧ attempt.completed = true ∧
          attempt.exam_id = eid ∧
          row.score = (sectionedQuestions db eid).countP (isCorrect attempt.answers) ∧
          row.total_questions = (sectionedQuestions db eid).length ∧
          row.percentage = pctBp row.score row.total_questions ∧
          (row.total_questions = 0 → row.percentage = 0)) ∧
    (∀ sid row, row ∈ get_student_results sid db →
      ∃ attempt, attempt ∈ db.exam_attempts ∧ attempt.completed = true ∧
        attempt.student_id = sid ∧
        row.score = (sectionedQuestions db attempt.exam_id).countP (isCorrect attempt.answers) ∧
        row.total = (sectionedQuestions db attempt.exam_id).length ∧
        row.percentage = pctBp row.score row.total ∧
        (row.total = 0 → row.percentage = 0)) := by
  refine ⟨?_, ?_, ?_⟩
  · intro b y s subj sec row hrow
    rw [get_results] at hrow
    obtain ⟨a, hamem, hbuild⟩ := List.mem_filterMap.mp hrow
    obtain ⟨hamem2, hacomp⟩ := List.mem_filter.mp hamem
    obtain ⟨h1, h2, h3⟩ := resultRowOf_props b y s subj sec db a row hbuild
    exact ⟨a, hamem2, hacomp, h1, h2, h3,
      fun h0 => by rw [h3, h0, pctBp_zero]⟩
  · intro eid out hok
    rw [get_exam_results] at hok
    cases hex : db.exams.find? (fun e => e.id == eid) with
    | none => rw [hex] at hok; cases hok
    | some exam =>
      rw [hex] at hok
      injection hok with hout
      subst hout
      refine ⟨rfl, ?_⟩
      intro row hrow
      obtain ⟨a, hamem, hbuild⟩ := List.mem_filterMap.mp hrow
      obtain ⟨hamem2, hcond⟩ := List.mem_filter.mp hamem
      rw [Bool.and_eq_true] at hcond
      obtain ⟨haeid, hacomp⟩ := hcond
      obtain ⟨h1, h2, h3⟩ := examResultRowOf_props db (sectionedQuestions db eid) a row hbuild
      exact ⟨a, hamem2, hacomp, by simpa using haeid, h1, h2, h3,
        fun h0 => by rw [h3, h0, pctBp_zero]⟩
  · intro sid row hrow
    rw [get_student_results] at hrow
    obtain ⟨a, hamem, hbuild⟩ := List.mem_filterMap.mp hrow
    obtain ⟨hamem2, hcond⟩ := List.mem_filter.mp hamem
    rw [Bool.and_eq_true] at hcond
    obtain ⟨hasid, hacomp⟩ := hcond
    obtain ⟨h1, h2, h3⟩ := studentResultRowOf_props db a row hbuild
    exact ⟨a, hamem2, hacomp, by simpa using hasid, h1, h2, h3,
      fun h0 => by rw [h3, h0, pctBp_zero]⟩

/-- Witness for C3: on `wDb3` the all-results endpoint (no filters) emits
`wRow3`, whose score 1 counts only the sectioned question `q1` (the
answered but unsectioned `q2` is excluded) with percentage 100.00 (10000 hundredths). -/
theorem C3_sectioned_scoring_witness :
    wRow3 ∈ get_results none none none none none wDb3 ∧
    ∃ attempt, attempt ∈ wDb3.exam_attempts ∧ attempt.completed = true ∧
      wRow3.score = (sectionedQuestions wDb3 attempt.exam_id).countP (isCorrect attempt.answers) ∧
      wRow3.total = (sectionedQuestions wDb3 attempt.exam_id).length ∧
      wRow3.percentage = pctBp wRow3.score wRow3.total ∧
      (wRow3.total = 0 → wRow3.percentage = 0) := by
  have hmem : wRow3 ∈ get_results none none none none none wDb3 := by decide
  exact ⟨hmem, (C3_sectioned_scoring wDb3).1 none none none none none wRow3 hmem⟩

/-! ## Claim C7 -/

theorem updateFirst_idem {α} {p : α → Bool} {f : α → α}
    (hp : ∀ x, p (f x) = p x) (hf : ∀ x, f (f x) = f x) (l : List α) :
    updateFirst p f (updateFirst p f l) = updateFirst p f l := by
  induction l with
  | nil => rfl
  | cons a as ih =>
    by_cases hpa : p a = true
    · rw [updateFirst, if_pos hpa, updateFirst, if_pos (by rw [hp]; exact hpa), hf]
    · rw [updateFirst, if_neg hpa, updateFirst, if_neg hpa, ih]

theorem updateFirst_eq_map_pairwise {α} {p : α → Bool} {f : α → α} {l : List α}
    (hpw : l.Pairwise (fun a b => ¬(p a = true ∧ p b = true))) :
    updateFirst p f l = l.map (fun x => if p x then f x else x) := by
  induction l with
  | nil => rfl
  | cons a as ih =>
    rw [List.pairwise_cons] at hpw
    obtain ⟨ha, hpw2⟩ := hpw
    by_cases hpa : p a = true
    · rw [updateFirst, if_pos hpa, List.map_cons, if_pos hpa]
      congr 1
      have hnone : ∀ y ∈ as, (if p y then f y else y) = y := by
        intro y hy
        have hnot := ha y hy
        have hpy : ¬(p y = true) := fun hyy => hnot ⟨hpa, hyy⟩
        rw [if_neg hpy]
      calc as = as.map id := (List.map_id as).symm
        _ = as.map (fun x => if p x then f x else x) :=
            (List.map_congr_left (fun y hy => (hnone y hy).symm))
    · rw [updateFirst, if_neg hpa, List.map_cons, if_neg hpa, ih hpw2]

theorem stampPoint_key (eid : String) (op : String × Nat) (q : Question) :
    (stampPoint eid op q).id = q.id ∧ (stampPoint eid op q).exam_id = q.exam_id := by
  rw [stampPoint]
  split <;> exact ⟨rfl, rfl⟩

theorem stampPoints_key (eid : String) (ops : List (String × Nat)) (q : Question) :
    (stampPoints eid ops q).id = q.id ∧ (stampPoints eid ops q).exam_id = q.exam_id := by
  induction ops generalizing q with
  | nil => exact ⟨rfl, rfl⟩
  | cons op rest ih =>
    have hstep : stampPoints eid (op :: rest) q =
        stampPoints eid rest (stampPoint eid op q) := rfl
    rw [hstep]
    obtain ⟨h1, h2⟩ := ih (stampPoint eid op q)
    obtain ⟨g1, g2⟩ := stampPoint_key eid op q
    exact ⟨h1.trans g1, h2.trans g2⟩

theorem unsetPoint_key (eid : String) (asg : List String) (q : Question) :
    (unsetPoint eid asg q).id = q.id ∧ (unsetPoint eid asg q).exam_id = q.exam_id := by
  rw [unsetPoint]
  split <;> exact ⟨rfl, rfl⟩

theorem lastMatchOp_congr (eid : String) (ops : List (String × Nat)) {q q' : Question}
    (h1 : q'.id = q.id) (h2 : q'.exam_id = q.exam_id) :
    lastMatchOp eid ops q' = lastMatchOp eid ops q := by
  rw [lastMatchOp, lastMatchOp, h1, h2]

/-- Normal form of the stamping loops on one question: the last matching
`(qid, idx)` pair wins (the predicates only inspect `id`/`exam_id`, which no
stamp changes). -/
theorem stampPoints_nf (eid : String) (ops : List (String × Nat)) (q : Question) :
    stampPoints eid ops q =
      match lastMatchOp eid ops q with
      | some op => { q with section_id := some op.2 }
      | none => q := by
  induction ops generalizing q with
  | nil => rfl
  | cons op rest ih =>
    have hstep : stampPoints eid (op :: rest) q =
        stampPoints eid rest (stampPoint eid op q) := rfl
    rw [hstep]
    by_cases hm : (q.id == op.1 && q.exam_id == eid) = true
    · have hq1 : stampPoint eid op q = { q with section_id := some op.2 } := by
        rw [stampPoint, if_pos hm]
      rw [hq1, ih]
      have hcongr : lastMatchOp eid rest { q with section_id := some op.2 } =
          lastMatchOp eid rest q := lastMatchOp_congr eid rest rfl rfl
      rw [hcongr]
      have hfc : lastMatchOp eid (op :: rest) q =
          (op :: rest.filter (fun o => q.id == o.1 && q.exam_id == eid)).getLast? := by
        rw [lastMatchOp, List.filter_cons, if_pos hm]
      rw [hfc]
      cases hl : rest.filter (fun o => q.id == o.1 && q.exam_id == eid) with
      | nil =>
        have hrest : lastMatchOp eid rest q = none := by rw [lastMatchOp, hl]; rfl
        rw [hrest]
        rfl
      | cons b bs =>
        have hrest : lastMatchOp eid rest q = (b :: bs).getLast? := by
          rw [lastMatchOp, hl]
        rw [hrest, List.getLast?_cons_cons]
        cases hg : (b :: bs).getLast? with
        | none =>
          rw [List.getLast?_eq_none_iff] at hg
          cases hg
        | some last => rfl
    · have hq1 : stampPoint eid op q = q := by rw [stampPoint, if_neg hm]
      rw [hq1, ih]
      have hfc : lastMatchOp eid (op :: rest) q = lastMatchOp eid rest q := by
        rw [lastMatchOp, lastMatchOp, List.filter_cons, if_neg hm]
      rw [hfc]

theorem stampAll_eq_map (eid : String) (ops : List (String × Nat))
    (qs : List Question) (hnodup : (qs.map (fun q => q.id)).Nodup) :
    ops.foldl (fun acc op => updateFirst (fun q => q.id == op.1 && q.exam_id == eid)
      (fun q => { q with section_id := some op.2 }) acc) qs
      = qs.map (stampPoints eid ops) := by
  induction ops generalizing qs with
  | nil =>
    rw [List.foldl_nil]
    have : qs.map (stampPoints eid []) = qs.map id :=
      List.map_congr_left (fun q _ => rfl)
    rw [this, List.map_id]
  | cons op rest ih =>
    rw [List.foldl_cons]
    have hpw : qs.Pairwise (fun a b =>
        ¬((a.id == op.1 && a.exam_id == eid) = true ∧
          (b.id == op.1 && b.exam_id == eid) = true)) := by
      have h2 := List.pairwise_map.mp hnodup
      refine h2.imp ?_
      intro a b hab ⟨ha, hb⟩
      rw [Bool.and_eq_true] at ha hb
      rw [beq_iff_eq] at ha hb
      exact hab (ha.1.trans hb.1.symm)
    rw [updateFirst_eq_map_pairwise hpw]
    have hid : (((qs.map (fun x => if x.id == op.1 && x.exam_id == eid
        then { x with section_id := some op.2 } else x)).map (fun q => q.id))).Nodup := by
      rw [List.map_map]
      have hfun : ((fun q : Question => q.id) ∘
          (fun x => if x.id == op.1 && x.exam_id == eid
            then { x with section_id := some op.2 } else x)) = (fun q : Question => q.id) := by
        funext x
        simp only [Function.comp]
        split <;> rfl
      rw [hfun]
      exact hnodup
    rw [ih _ hid, List.map_map]
    rfl

theorem organize_questions_eq_map (eid : String) (secs : List SectionCfg)
    (qs : List Question) (hnodup : (qs.map (fun q => q.id)).Nodup) :
    clearUnassigned eid (allAssignedIds secs) (stampAll eid secs qs)
      = qs.map (organizePoint eid secs) := by
  rw [stampAll, stampAll_eq_map eid (stampOps secs) qs hnodup,
    clearUnassigned, List.map_map]
  rfl

theorem stampOps_fst_mem {secs : List SectionCfg} {op : String × Nat}
    (h : op ∈ stampOps secs) : op.1 ∈ allAssignedIds secs := by
  rw [stampOps] at h
  rw [allAssignedIds]
  rw [List.mem_flatten] at h
  rw [List.mem_flatten]
  obtain ⟨l, hl, hop⟩ := h
  obtain ⟨p, hp, rfl⟩ := List.mem_map.mp hl
  obtain ⟨qid, hqid, rfl⟩ := List.mem_map.mp hop
  refine ⟨p.2.question_ids, ?_, hqid⟩
  exact List.mem_map.mpr ⟨p.2, List.snd_mem_of_mem_enum hp, rfl⟩

theorem unsetPoint_idem (eid : String) (asg : List String) (q : Question) :
    unsetPoint eid asg (unsetPoint eid asg q) = unsetPoint eid asg q := by
  by_cases hc : (q.exam_id == eid && !(asg.contains q.id)) = true
  · have h1 : unsetPoint eid asg q = { q with section_id := none } := by
      rw [unsetPoint, if_pos hc]
    rw [h1, unsetPoint, if_pos hc]
  · have h1 : unsetPoint eid asg q = q := by rw [unsetPoint, if_neg hc]
    rw [h1, h1]

theorem organizePoint_idem (eid : String) (secs : List SectionCfg) (q : Question) :
    organizePoint eid secs (organizePoint eid secs q) = organizePoint eid secs q := by
  rw [organizePoint, organizePoint]
  cases hm : lastMatchOp eid (stampOps secs) q with
  | some op =>
    have hopmem : op ∈ (stampOps secs).filter
        (fun o => q.id == o.1 && q.exam_id == eid) := by
      rw [lastMatchOp] at hm
      obtain ⟨hne, heq⟩ := List.mem_getLast?_eq_getLast (x := op)
        (by rw [Option.mem_def]; exact hm)
      rw [heq]
      exact List.getLast_mem hne
    obtain ⟨hopin, hpred⟩ := List.mem_filter.mp hopmem
    rw [Bool.and_eq_true] at hpred
    rw [beq_iff_eq] at hpred
    obtain ⟨hqid, hqexam⟩ := hpred
    rw [beq_iff_eq] at hqexam
    have hassigned : q.id ∈ allAssignedIds secs := by
      rw [hqid]
      exact stampOps_fst_mem hopin
    have hq1 : stampPoints eid (stampOps secs) q = { q with section_id := some op.2 } := by
      rw [stampPoints_nf, hm]
    have hcnot : ¬(({ q with section_id := some op.2 } : Question).exam_id == eid &&
        !(allAssignedIds secs).contains ({ q with section_id := some op.2 } : Question).id) = true := by
      simp [hqexam, hassigned]
    have hunset1 : unsetPoint eid (allAssignedIds secs) { q with section_id := some op.2 } =
        { q with section_id := some op.2 } := by
      rw [unsetPoint, if_neg hcnot]
    rw [hq1, hunset1]
    have hm2 : lastMatchOp eid (stampOps secs) { q with section_id := some op.2 } = some op :=
      (lastMatchOp_congr eid (stampOps secs) rfl rfl).trans hm
    have hq2 : stampPoints eid (stampOps secs) { q with section_id := some op.2 } =
        { q with section_id := some op.2 } := by
      rw [stampPoints_nf, hm2]
    rw [hq2, hunset1]
  | none =>
    have hq1 : stampPoints eid (stampOps secs) q = q := by rw [stampPoints_nf, hm]
    rw [hq1]
    obtain ⟨hk1, hk2⟩ := unsetPoint_key eid (allAssignedIds secs) q
    have hm2 : lastMatchOp eid (stampOps secs)
        (unsetPoint eid (allAssignedIds secs) q) = none :=
      (lastMatchOp_congr eid (stampOps secs) hk1 hk2).trans hm
    have hq2 : stampPoints eid (stampOps secs)
        (unsetPoint eid (allAssignedIds secs) q) =
        unsetPoint eid (allAssignedIds secs) q := by
      rw [stampPoints_nf, hm2]
    rw [hq2]
    exact unsetPoint_idem eid (allAssignedIds secs) q

theorem organizePoint_id (eid : String) (secs : List SectionCfg) (q : Question) :
    (organizePoint eid secs q).id = q.id := by
  rw [organizePoint]
  obtain ⟨h1, _⟩ := unsetPoint_key eid (allAssignedIds secs)
    (stampPoints eid (stampOps secs) q)
  obtain ⟨h2, _⟩ := stampPoints_key eid (stampOps secs) q
  exact h1.trans h2

/-- Claim C7: `organize_sections` is idempotent — re-running it with the
same input on the state it produced returns the same
`questions_assigned` count and reproduces the stored state exactly (with
pairwise-distinct question ids, as the uuid-keyed collection guarantees). -/
theorem C7_organize_idempotent (db : Db) (eid : String) (secs : List SectionCfg)
    (resp : OrganizeResp) (db1 : Db)
    (hnodup : (db.questions.map (fun q => q.id)).Nodup)
    (h : organize_sections eid secs db = .ok (resp, db1)) :
    organize_sections eid secs db1 = .ok (resp, db1) := by
  cases hfind : db.exams.find? (fun e => e.id == eid) with
  | none => rw [organize_sections, hfind] at h; cases h
  | some e0 =>
    have hcomp : organize_sections eid secs db =
        .ok ({ success := true, questions_assigned := totalAssigned secs },
             { db with
                 exams := updateFirst (fun e => e.id == eid)
                   (fun e => { e with
                     sections := secs
                     questions_per_student := ((totalAssigned secs : Nat) : Int) })
                   db.exams
                 questions := clearUnassigned eid (allAssignedIds secs)
                   (stampAll eid secs db.questions) }) := by
      rw [organize_sections, hfind]
    rw [hcomp] at h
    injection h with hpair
    injection hpair with hresp hdb1
    subst hresp
    subst hdb1
    have hfind1 : (updateFirst (fun e => e.id == eid)
        (fun e => { e with
          sections := secs
          questions_per_student := ((totalAssigned secs : Nat) : Int) })
        db.exams).find? (fun e => e.id == eid) = some
          { e0 with
            sections := secs
            questions_per_student := ((totalAssigned secs : Nat) : Int) } :=
      find?_updateFirst (fun y hy => hy) hfind
    rw [organize_sections, hfind1]
    have hQ1 : clearUnassigned eid (allAssignedIds secs) (stampAll eid secs db.questions)
        = db.questions.map (organizePoint eid secs) :=
      organize_questions_eq_map eid secs db.questions hnodup
    have hnodup1 : ((db.questions.map (organizePoint eid secs)).map
        (fun q => q.id)).Nodup := by
      rw [List.map_map]
      have hfun : ((fun q : Question => q.id) ∘ organizePoint eid secs)
          = (fun q : Question => q.id) := by
        funext x
        exact organizePoint_id eid secs x
      rw [hfun]
      exact hnodup
    have hQstable : clearUnassigned eid (allAssignedIds secs)
        (stampAll eid secs (clearUnassigned eid (allAssignedIds secs)
          (stampAll eid secs db.questions)))
        = clearUnassigned eid (allAssignedIds secs) (stampAll eid secs db.questions) := by
      rw [hQ1, organize_questions_eq_map eid secs _ hnodup1, List.map_map]
      refine List.map_congr_left ?_
      intro q _
      exact organizePoint_idem eid secs q
    have hEstable : updateFirst (fun e => e.id == eid)
        (fun e => { e with
          sections := secs
          questions_per_student := ((totalAssigned secs : Nat) : Int) })
        (updateFirst (fun e => e.id == eid)
          (fun e => { e with
            sections := secs
            questions_per_student := ((totalAssigned secs : Nat) : Int) })
          db.exams)
        = updateFirst (fun e => e.id == eid)
          (fun e => { e with
            sections := secs
            questions_per_student := ((totalAssigned secs : Nat) : Int) })
          db.exams :=
      updateFirst_idem (p := fun e => e.id == eid)
        (f := fun e => { e with
          sections := secs
          questions_per_student := ((totalAssigned secs : Nat) : Int) })
        (fun x => rfl) (fun x => rfl) db.exams
    simp only [hEstable, hQstable]

/-- Witness for C7: organizing `c8db` twice with `c8secs` reproduces the
same response and the same stored state. -/
theorem C7_organize_idempotent_witness :
    organize_sections "E" c8secs c8db2 =
      .ok ({ success := true, questions_assigned := 1 }, c8db2) :=
  C7_organize_idempotent c8db "E" c8secs
    { success := true, questions_assigned := 1 } c8db2 (by decide) (by rfl)

/-! ## Claim C10 -/

/-- Claim C10: in the scoring comparison shared by `submit_exam` and the
three results recomputations, a question whose `correct_answer` is stored
absent (`None`) is counted as correct exactly when the attempt has no saved
answer for it — the missing-answer lookup and the absent correct answer are
the same null value — so it adds 1 to the score of a student who never
answered it and 0 to the score of one who did. -/
theorem C10_null_correct_counts_unanswered (answers : List (String × String))
    (q : Question) (hq : q.correct_answer = none) :
    (isCorrect answers q = true ↔ answerGet answers q.id = none) ∧
    ∀ qs, scoreLoop answers (q :: qs) =
      (if answerGet answers q.id = none then 1 else 0) + scoreLoop answers qs := by
  have hiff : isCorrect answers q = true ↔ answerGet answers q.id = none := by
    simp [isCorrect, hq]
  refine ⟨hiff, fun qs => ?_⟩
  rw [scoreLoop_eq_countP, scoreLoop_eq_countP, List.countP_cons]
  by_cases hans : answerGet answers q.id = none
  · rw [if_pos hans, if_pos (hiff.mpr hans)]
    omega
  · have hic : isCorrect answers q = false := by
      cases hic2 : isCorrect answers q
      · rfl
      · exact absurd (hiff.mp hic2) hans
    rw [if_neg hans, hic]
    simp

/-- Witness for C10: the null-correct-answer question `wqNull` with answers
that do not mention it — counted correct; and instantiated score equation on
the one-question list. -/
theorem C10_null_correct_witness :
    (isCorrect [("q2", "B")] wqNull = true ↔ answerGet [("q2", "B")] wqNull.id = none) ∧
    scoreLoop [("q2", "B")] [wqNull] =
      (if answerGet [("q2", "B")] wqNull.id = none then 1 else 0) +
        scoreLoop [("q2", "B")] [] :=
  ⟨(C10_null_correct_counts_unanswered [("q2", "B")] wqNull rfl).1,
   (C10_null_correct_counts_unanswered [("q2", "B")] wqNull rfl).2 []⟩

end ExamServer
